import Mathlib

/-!
Shallow embedding of the blueprintx record-storage abstraction layer
(`src/templates/hex-service/src/core/infrastructure/database/` and the
factory in `src/templates/ddd-service/src/main.py`) together with proofs
about its CRUD, identifier-policy, factory and backup behaviour.

Python dictionaries are embedded as association lists of string keys and
dynamically typed `Value`s; dict operations (`get`, assignment, `{**a, **b}`
spreads) are translated key-for-key.  `uuid.uuid4().hex` is modelled as the
32-digit lowercase hex encoding of an arbitrary 128-bit number supplied as an
explicit parameter.  `json.dumps`/`json.loads` round-tripping of a record is
modelled as the identity (lossless for the JSON-representable values that
`Value` comprises).  Raised exceptions are modelled with `Except`.
-/

namespace BlueprintX

/-- Dynamically typed values stored in a record: the JSON-like scalar and
nested shapes handled by the Python handlers. -/
inductive Value where
  | str (s : String)
  | int (n : Int)
  | bool (b : Bool)
  | null
  | list (vs : List Value)
  | dict (fields : List (String × Value))
deriving Repr

mutual

/-- Structural equality test on values (Python `==` on JSON-like data). -/
def Value.beq : Value → Value → Bool
  | .str a, .str b => a == b
  | .int a, .int b => a == b
  | .bool a, .bool b => a == b
  | .null, .null => true
  | .list a, .list b => Value.beqList a b
  | .dict a, .dict b => Value.beqFields a b
  | _, _ => false

/-- Elementwise equality of value lists. -/
def Value.beqList : List Value → List Value → Bool
  | [], [] => true
  | a :: as_, b :: bs => Value.beq a b && Value.beqList as_ bs
  | _, _ => false

/-- Elementwise equality of key-value field lists. -/
def Value.beqFields : List (String × Value) → List (String × Value) → Bool
  | [], [] => true
  | (ka, va) :: as_, (kb, vb) :: bs =>
      ka == kb && Value.beq va vb && Value.beqFields as_ bs
  | _, _ => false

end

mutual

theorem Value.beq_refl : ∀ v : Value, Value.beq v v = true
  | .str _ => by simp [Value.beq]
  | .int _ => by simp [Value.beq]
  | .bool _ => by simp [Value.beq]
  | .null => by simp [Value.beq]
  | .list vs => by simp [Value.beq, Value.beqList_refl vs]
  | .dict fs => by simp [Value.beq, Value.beqFields_refl fs]

theorem Value.beqList_refl : ∀ vs : List Value, Value.beqList vs vs = true
  | [] => by simp [Value.beqList]
  | v :: vs => by simp [Value.beqList, Value.beq_refl v, Value.beqList_refl vs]

theorem Value.beqFields_refl : ∀ fs : List (String × Value), Value.beqFields fs fs = true
  | [] => by simp [Value.beqFields]
  | (k, v) :: fs => by
      simp [Value.beqFields, Value.beq_refl v, Value.beqFields_refl fs]

end

mutual

theorem Value.eq_of_beq : ∀ {a b : Value}, Value.beq a b = true → a = b
  | .str _, .str _, h => by simpa [Value.beq] using congrArg Value.str (by
      simpa [Value.beq] using h)
  | .str _, .int _, h => by simp [Value.beq] at h
  | .str _, .bool _, h => by simp [Value.beq] at h
  | .str _, .null, h => by simp [Value.beq] at h
  | .str _, .list _, h => by simp [Value.beq] at h
  | .str _, .dict _, h => by simp [Value.beq] at h
  | .int _, .str _, h => by simp [Value.beq] at h
  | .int _, .int _, h => by
      simp [Value.beq] at h
      simp [h]
  | .int _, .bool _, h => by simp [Value.beq] at h
  | .int _, .null, h => by simp [Value.beq] at h
  | .int _, .list _, h => by simp [Value.beq] at h
  | .int _, .dict _, h => by simp [Value.beq] at h
  | .bool _, .str _, h => by simp [Value.beq] at h
  | .bool _, .int _, h => by simp [Value.beq] at h
  | .bool _, .bool _, h => by
      simp [Value.beq] at h
      simp [h]
  | .bool _, .null, h => by simp [Value.beq] at h
  | .bool _, .list _, h => by simp [Value.beq] at h
  | .bool _, .dict _, h => by simp [Value.beq] at h
  | .null, .str _, h => by simp [Value.beq] at h
  | .null, .int _, h => by simp [Value.beq] at h
  | .null, .bool _, h => by simp [Value.beq] at h
  | .null, .null, _ => rfl
  | .null, .list _, h => by simp [Value.beq] at h
  | .null, .dict _, h => by simp [Value.beq] at h
  | .list _, .str _, h => by simp [Value.beq] at h
  | .list _, .int _, h => by simp [Value.beq] at h
  | .list _, .bool _, h => by simp [Value.beq] at h
  | .list _, .null, h => by simp [Value.beq] at h
  | .list as_, .list bs, h => by
      have := Value.eqList_of_beq (by simpa [Value.beq] using h)
      simp [this]
  | .list _, .dict _, h => by simp [Value.beq] at h
  | .dict _, .str _, h => by simp [Value.beq] at h
  | .dict _, .int _, h => by simp [Value.beq] at h
  | .dict _, .bool _, h => by simp [Value.beq] at h
  | .dict _, .null, h => by simp [Value.beq] at h
  | .dict _, .list _, h => by simp [Value.beq] at h
  | .dict as_, .dict bs, h => by
      have := Value.eqFields_of_beq (by simpa [Value.beq] using h)
      simp [this]

theorem Value.eqList_of_beq : ∀ {as_ bs : List Value}, Value.beqList as_ bs = true → as_ = bs
  | [], [], _ => rfl
  | [], _ :: _, h => by simp [Value.beqList] at h
  | _ :: _, [], h => by simp [Value.beqList] at h
  | a :: as_, b :: bs, h => by
      have h' := h
      simp [Value.beqList] at h'
      have h1 := Value.eq_of_beq h'.1
      have h2 := Value.eqList_of_beq h'.2
      simp [h1, h2]

theorem Value.eqFields_of_beq :
    ∀ {as_ bs : List (String × Value)}, Value.beqFields as_ bs = true → as_ = bs
  | [], [], _ => rfl
  | [], _ :: _, h => by simp [Value.beqFields] at h
  | _ :: _, [], h => by simp [Value.beqFields] at h
  | (ka, va) :: as_, (kb, vb) :: bs, h => by
      have h' := h
      simp [Value.beqFields] at h'
      have h1 := Value.eq_of_beq h'.1.2
      have h2 := Value.eqFields_of_beq h'.2
      simp [h'.1.1, h1, h2]

end

instance : BEq Value := ⟨Value.beq⟩

instance : LawfulBEq Value where
  eq_of_beq h := Value.eq_of_beq h
  rfl := Value.beq_refl _

instance : DecidableEq Value := fun a b =>
  decidable_of_iff (Value.beq a b = true)
    ⟨fun h => Value.eq_of_beq h, fun h => h ▸ Value.beq_refl a⟩

/-- Python truthiness of a value (`if value:`): empty strings, zero, `False`,
`None` and empty containers are falsy, everything else is truthy. -/
def Value.truthy : Value → Bool
  | .str s => !(s == "")
  | .int n => !(n == 0)
  | .bool b => b
  | .null => false
  | .list vs => !vs.isEmpty
  | .dict fs => !fs.isEmpty

mutual

/-- Python `repr` of a value, used by `str` on nested containers.  String
escaping inside quotes is not reproduced; only the shape matters here. -/
def pyRepr : Value → String
  | .str s => "\x27" ++ s ++ "\x27"
  | .int n => n.repr
  | .bool b => if b then "True" else "False"
  | .null => "None"
  | .list vs => "[" ++ String.intercalate ", " (pyReprList vs) ++ "]"
  | .dict fs => "\x7b" ++ String.intercalate ", " (pyReprFields fs) ++ "\x7d"

/-- Python `repr` applied elementwise to a list of values. -/
def pyReprList : List Value → List String
  | [] => []
  | v :: vs => pyRepr v :: pyReprList vs

/-- Python `repr` applied to the key/value pairs of a dict. -/
def pyReprFields : List (String × Value) → List String
  | [] => []
  | (k, v) :: fs => ("\x27" ++ k ++ "\x27: " ++ pyRepr v) :: pyReprFields fs

end

/-- Python `str` of a value: the string itself for strings, `repr`-style text
for every other shape. -/
def pyStr : Value → String
  | .str s => s
  | .int n => pyRepr (.int n)
  | .bool b => pyRepr (.bool b)
  | .null => pyRepr .null
  | .list vs => pyRepr (.list vs)
  | .dict fs => pyRepr (.dict fs)

/-- A record (`Record = dict[str, Any]` in `base.py`/`dto.py`): a Python dict
embedded as an association list in insertion order. -/
abbrev Rec := List (String × Value)

namespace Rec

/-- Lookup `record.get(key)`: the value stored under `key`, if any (first match). -/
def get : Rec → String → Option Value
  | [], _ => none
  | (k, v) :: r, key => if k == key then some v else get r key

/-- Dict assignment `d[key] = v` as performed by a `{** ...}` spread: replace
the value at an existing key in place, otherwise append the new key. -/
def insert : Rec → String → Value → Rec
  | [], key, v => [(key, v)]
  | (k, w) :: r, key, v => if k == key then (k, v) :: r else (k, w) :: insert r key v

/-- The dict spread `{**a, **b}`: start from `a` and assign every binding of
`b` in order. -/
def merge (a b : Rec) : Rec :=
  b.foldl (fun acc kv => insert acc kv.1 kv.2) a

/-- The key list of a record, in insertion order. -/
def keys (r : Rec) : List String := r.map Prod.fst

/-- A record arising from an actual Python dict has pairwise distinct keys. -/
def NoDupKeys (r : Rec) : Prop := r.keys.Nodup

@[simp] theorem get_nil (key : String) : get [] key = none := rfl

@[simp] theorem get_cons (k : String) (v : Value) (r : Rec) (key : String) :
    get ((k, v) :: r) key = if k == key then some v else get r key := rfl

@[simp] theorem insert_nil (key : String) (v : Value) : insert [] key v = [(key, v)] := rfl

@[simp] theorem insert_cons (k : String) (w : Value) (r : Rec) (key : String) (v : Value) :
    insert ((k, w) :: r) key v =
      if k == key then (k, v) :: r else (k, w) :: insert r key v := rfl

@[simp] theorem keys_nil : keys [] = [] := rfl

@[simp] theorem keys_cons (k : String) (v : Value) (r : Rec) :
    keys ((k, v) :: r) = k :: keys r := rfl

@[simp] theorem merge_nil (a : Rec) : merge a [] = a := rfl

@[simp] theorem merge_cons (a : Rec) (k : String) (v : Value) (b : Rec) :
    merge a ((k, v) :: b) = merge (insert a k v) b := rfl

theorem get_insert_self (r : Rec) (key : String) (v : Value) :
    get (insert r key v) key = some v := by
  induction r with
  | nil => simp
  | cons kv r ih =>
      obtain ⟨k, w⟩ := kv
      by_cases h : k = key
      · simp [h]
      · simp [h, ih]

theorem get_insert_ne (r : Rec) (key : String) (v : Value) (k2 : String) (h : k2 ≠ key) :
    get (insert r key v) k2 = get r k2 := by
  induction r with
  | nil => simp [Ne.symm h]
  | cons kv r ih =>
      obtain ⟨k, w⟩ := kv
      by_cases hk : k = key
      · subst hk
        simp [Ne.symm h]
      · simp [hk, ih]

theorem insert_of_get_eq (r : Rec) (key : String) (v : Value) (h : get r key = some v) :
    insert r key v = r := by
  induction r with
  | nil => simp at h
  | cons kv r ih =>
      obtain ⟨k, w⟩ := kv
      by_cases hk : k = key
      · subst hk
        simp at h
        simp [h]
      · simp [hk] at h ⊢
        exact ih h

theorem get_eq_none_of_not_mem_keys (r : Rec) (key : String) (h : key ∉ keys r) :
    get r key = none := by
  induction r with
  | nil => rfl
  | cons kv r ih =>
      obtain ⟨k, w⟩ := kv
      rw [keys_cons, List.mem_cons] at h
      push_neg at h
      simp [Ne.symm h.1, ih h.2]

theorem get_merge (a b : Rec) (hb : NoDupKeys b) (k : String) :
    get (merge a b) k =
      (match get b k with
       | some v => some v
       | none => get a k) := by
  induction b generalizing a with
  | nil => simp
  | cons kv b ih =>
      obtain ⟨kb, vb⟩ := kv
      have hb' : List.Nodup (kb :: keys b) := hb
      rw [List.nodup_cons] at hb'
      rw [merge_cons, ih (insert a kb vb) hb'.2]
      by_cases hk : kb = k
      · subst hk
        rw [get_eq_none_of_not_mem_keys b kb hb'.1]
        simp [get_insert_self]
      · simp [hk, get_insert_ne a kb vb k (Ne.symm hk)]

theorem get_merge_of_mem (a b : Rec) (hb : NoDupKeys b) (k : String) (v : Value)
    (h : get b k = some v) : get (merge a b) k = some v := by
  rw [get_merge a b hb k, h]

theorem get_merge_of_not_mem (a b : Rec) (hb : NoDupKeys b) (k : String)
    (h : get b k = none) : get (merge a b) k = get a k := by
  rw [get_merge a b hb k, h]

end Rec

/-- Result of `record.get(id_field)` fed to `str(...)`: Python renders an absent value
(`None`) as the string "None". -/
def pyStrOpt : Option Value → String
  | some v => pyStr v
  | none => "None"

/-- Truthiness of a `dict.get` result; an absent key (`None`) is falsy. -/
def truthyOpt : Option Value → Bool
  | some v => v.truthy
  | none => false

/-- Lowercase hex digit of a value below 16 (codepoint arithmetic: digits
then letters). -/
def hexDigitChar (k : Nat) : Char :=
  if k < 10 then Char.ofNat (48 + k) else Char.ofNat (87 + k)

/-- Token generation `uuid.uuid4().hex`, modelled as a function of the underlying 128-bit
random draw `n`: the 32-digit, zero-padded, lowercase big-endian hex encoding
of `n mod 2^128`. -/
def uuidHex (n : Nat) : String :=
  ⟨(List.range 32).map fun i => hexDigitChar (n % 2 ^ 128 / 16 ^ (31 - i) % 16)⟩

/-- Function `ensure_id` from `base.py`: keep a truthy identifier value, coerced to its
string form; otherwise insert a freshly generated hex token. -/
def ensure_id (record : Rec) (id_field : String) (fresh : Nat) : Rec :=
  let value := record.get id_field
  if truthyOpt value then
    record.insert id_field (.str (pyStrOpt value))
  else
    record.insert id_field (.str (uuidHex fresh))

/-- The row-selection test shared by the file handlers:
`str(row.get(self.id_field)) == str(record_id)` with `record_id` already a
string. -/
def rowMatches (id_field record_id : String) (row : Rec) : Bool :=
  pyStrOpt (row.get id_field) == record_id

namespace JSONDatabaseHandler

/-- Method `create` from `json_handler.py`: normalize the identifier, append the
record to the loaded rows, rewrite the file, return `str(record[id_field])`. -/
def create (id_field : String) (fresh : Nat) (rows : List Rec) (record : Rec) :
    List Rec × String :=
  let record := ensure_id record id_field fresh
  (rows ++ [record], pyStrOpt (record.get id_field))

/-- Method `read` from `json_handler.py`: first row whose stringified identifier
equals the requested one, else `None`. -/
def read (id_field : String) (rows : List Rec) (record_id : String) : Option Rec :=
  rows.find? (rowMatches id_field record_id)

/-- Loop body of `update`: each matching row is replaced by
`{**row, **updates, id_field: record_id}`; `updated` ends up holding the last
merged match. -/
def updateGo (id_field record_id : String) (updates : Rec) :
    List Rec → List Rec × Option Rec
  | [] => ([], none)
  | row :: rest =>
      let tail := updateGo id_field record_id updates rest
      if rowMatches id_field record_id row then
        let row' := (row.merge updates).insert id_field (.str record_id)
        (row' :: tail.1, tail.2 <|> some row')
      else
        (row :: tail.1, tail.2)

/-- Method `update` from `json_handler.py`: merge the partial payload into every
matching row, pin the identifier, rewrite the file only when a match existed,
and return the merged record (or `None`). -/
def update (id_field : String) (rows : List Rec) (record_id : String) (updates : Rec) :
    List Rec × Option Rec :=
  let result := updateGo id_field record_id updates rows
  if result.2.isSome then result else (rows, none)

/-- Method `delete` from `json_handler.py`: drop every matching row; report whether
the row count shrank. -/
def delete (id_field : String) (rows : List Rec) (record_id : String) :
    List Rec × Bool :=
  let remaining := rows.filter fun row => !(rowMatches id_field record_id row)
  if remaining.length = rows.length then (rows, false) else (remaining, true)

end JSONDatabaseHandler

namespace CSVDatabaseHandler

/-- One CSV cell after a write/read cycle: `csv` writes `str(value)` (and the
`DictWriter` restval `""` for a key the row lacks) and `DictReader` returns
plain strings. -/
def csvCell : Option Value → Value
  | some v => .str (pyStr v)
  | none => .str ""

/-- Header `sorted(\x7bkey for row in rows for key in row.keys()\x7d)`: the sorted union
of all field names. -/
def csvFields (rows : List Rec) : List String :=
  ((rows.flatMap Rec.keys).dedup).mergeSort (fun a b => a ≤ b)

/-- Effect of `_write_all` followed by `_read_all`: every row is re-read with
the full sorted header, all values flattened to strings. -/
def csvNormalize (rows : List Rec) : List Rec :=
  if rows.isEmpty then []
  else rows.map fun row => (csvFields rows).map fun k => (k, csvCell (row.get k))

/-- Method `create` from `csv_handler.py`: normalize the identifier, append, rewrite
the whole file with the recomputed header. -/
def create (id_field : String) (fresh : Nat) (rows : List Rec) (record : Rec) :
    List Rec × String :=
  let record := ensure_id record id_field fresh
  (csvNormalize (rows ++ [record]), pyStrOpt (record.get id_field))

/-- Method `read` from `csv_handler.py`: identical row scan to the JSON handler. -/
def read (id_field : String) (rows : List Rec) (record_id : String) : Option Rec :=
  rows.find? (rowMatches id_field record_id)

/-- Method `delete` from `csv_handler.py`: drop every matching row; only a shrinking
row count triggers a rewrite and a `True` result. -/
def delete (id_field : String) (rows : List Rec) (record_id : String) :
    List Rec × Bool :=
  let remaining := rows.filter fun row => !(rowMatches id_field record_id row)
  if remaining.length = rows.length then (rows, false)
  else (csvNormalize remaining, true)

end CSVDatabaseHandler

/-- The two-column SQL table (identifier primary key, opaque payload) shared
by the SQL-backed handlers; `json.dumps`/`json.loads` of the payload is
modelled as the identity on records. -/
abbrev Table := List (String × Rec)

namespace Table

/-- Primary-key lookup: `SELECT data ... WHERE id = ?`. -/
def lookup (t : Table) (key : String) : Option Rec :=
  (t.find? fun e => e.1 == key).map Prod.snd

/-- The native SQL upsert (`INSERT OR REPLACE` and friends): replace the row
with that primary key, or append a new row. -/
def upsert (t : Table) (key : String) (r : Rec) : Table :=
  if (t.find? fun e => e.1 == key).isSome then
    t.map fun e => if e.1 == key then (key, r) else e
  else t ++ [(key, r)]

end Table

namespace SQLiteDatabaseHandler

/-- Method `create` from `sqlite_handler.py`: normalize the identifier, then
`INSERT OR REPLACE` keyed by `record[id_field]` (a string after `ensure_id`,
so `str(...)` is the identity on it). -/
def create (id_field : String) (fresh : Nat) (t : Table) (record : Rec) :
    Table × String :=
  let record := ensure_id record id_field fresh
  let key := pyStrOpt (record.get id_field)
  (t.upsert key record, key)

/-- Method `read` from `sqlite_handler.py`: parameterized single-row select. -/
def read (t : Table) (record_id : String) : Option Rec :=
  t.lookup record_id

/-- Method `update` from `sqlite_handler.py`: read, shallow-merge, pin the
identifier, persist through `create`, return the merged record. -/
def update (id_field : String) (fresh : Nat) (t : Table) (record_id : String)
    (updates : Rec) : Table × Option Rec :=
  match read t record_id with
  | none => (t, none)
  | some existing =>
      let updated := (existing.merge updates).insert id_field (.str record_id)
      ((create id_field fresh t updated).1, some updated)

/-- Method `delete` from `sqlite_handler.py`: parameterized delete; `rowcount > 0`. -/
def delete (t : Table) (record_id : String) : Table × Bool :=
  (t.filter fun e => !(e.1 == record_id), t.any fun e => e.1 == record_id)

end SQLiteDatabaseHandler

/-- Outcome of running one external dump tool: `none` models the binary being
absent from PATH (`FileNotFoundError`), `some c` models a run that exited with
code `c` (`subprocess.run(..., check=True)` raises `CalledProcessError` when
`c` is non-zero). -/
abbrev ToolEnv := String → Option Nat

/-- The two failure shapes `backup` raises (both as `RuntimeError`, with
distinct messages and distinct causes): a missing tool executable, or a tool
run that exited non-zero (the exit code is carried in the message). -/
inductive BackupError where
  | toolMissing (message : String)
  | exitFailure (message : String) (code : Nat)
deriving DecidableEq, Repr

namespace MariaDBDatabaseHandler

/-- Method `backup` from `mariadb_handler.py`: run `mariadb-dump`; on
`FileNotFoundError` (and only then) retry with `mysqldump`; surface a missing
binary and a non-zero exit code as distinct raised errors. -/
def backup (env : ToolEnv) (target : String) : Except BackupError String :=
  match env "mariadb-dump" with
  | some 0 => .ok target
  | some code =>
      .error (.exitFailure ("mariadb-dump failed with exit code " ++ toString code) code)
  | none =>
      match env "mysqldump" with
      | some 0 => .ok target
      | some code =>
          .error (.exitFailure ("mysqldump failed with exit code " ++ toString code) code)
      | none =>
          .error (.toolMissing
            "mariadb-dump/mysqldump is required for MariaDB backups but was not found in PATH")

end MariaDBDatabaseHandler

namespace PostgresDatabaseHandler

/-- Method `backup` from `postgres_handler.py`: run `pg_dump` once; no alternate tool
is ever attempted. -/
def backup (env : ToolEnv) (target : String) : Except BackupError String :=
  match env "pg_dump" with
  | some 0 => .ok target
  | some code =>
      .error (.exitFailure ("pg_dump failed with exit code " ++ toString code) code)
  | none =>
      .error (.toolMissing "pg_dump is required for PostgreSQL backups but was not found in PATH")

end PostgresDatabaseHandler

namespace MySQLDatabaseHandler

/-- Method `backup` from `mysql_handler.py`: run `mysqldump` once; no alternate tool
is ever attempted. -/
def backup (env : ToolEnv) (target : String) : Except BackupError String :=
  match env "mysqldump" with
  | some 0 => .ok target
  | some code =>
      .error (.exitFailure ("mysqldump failed with exit code " ++ toString code) code)
  | none =>
      .error (.toolMissing "mysqldump is required for MySQL backups but was not found in PATH")

end MySQLDatabaseHandler

/-- The adapter implementations shipped with the repository. -/
inductive Adapter where
  | csvHandler
  | jsonHandler
  | sqliteHandler
  | postgresHandler
  | mariadbHandler
  | mysqlHandler
  | mssqlHandler
  | oracleHandler
deriving DecidableEq, Repr

/-- The abstract methods declared on `DatabaseHandler` in `base.py`: the
operation set every concrete adapter must override before the Python ABC
machinery lets it be instantiated. -/
def contractMethods : List String :=
  ["create", "read", "update", "delete", "backup", "close"]

/-- The contract methods each adapter class actually defines, transcribed
from the `def` lists of the handler source files (private helpers omitted). -/
def definedMethods : Adapter → List String
  | .csvHandler => ["create", "read", "update", "delete"]
  | .jsonHandler => ["create", "read", "update", "delete", "backup"]
  | .sqliteHandler => ["create", "read", "update", "delete", "backup"]
  | .postgresHandler => ["create", "read", "update", "delete", "backup", "close"]
  | .mariadbHandler => ["create", "read", "update", "delete", "backup", "close"]
  | .mysqlHandler => ["create", "read", "update", "delete", "backup", "close"]
  | .mssqlHandler => ["create", "read", "update", "delete", "backup", "close"]
  | .oracleHandler => ["create", "read", "update", "delete", "backup", "close"]

/-- The Python ABC instantiation check: a subclass of `DatabaseHandler` can be
instantiated exactly when it overrides every abstract method. -/
def instantiable (a : Adapter) : Bool :=
  contractMethods.all fun m => (definedMethods a).contains m

/-- Backend kinds selectable through `build_database_handler` in
`ddd-service/src/main.py`. -/
inductive BackendKind where
  | csv
  | json
  | sqlite
  | postgresql
  | mariadb
  | mysql
  | mssql
  | oracle
deriving DecidableEq, Repr

/-- The keys of the `builders` dict, in insertion order (used both for lookup
and for the `", ".join(builders)` text of the error message). -/
def builderKeys : List String :=
  ["csv", "json", "sqlite", "postgresql", "mariadb", "mysql", "mssql", "oracle"]

/-- The selector string each backend kind is registered under. -/
def backendKey : BackendKind → String
  | .csv => "csv"
  | .json => "json"
  | .sqlite => "sqlite"
  | .postgresql => "postgresql"
  | .mariadb => "mariadb"
  | .mysql => "mysql"
  | .mssql => "mssql"
  | .oracle => "oracle"

/-- Lookup in the `builders` dict. -/
def lookupBuilder (backend : String) : Option BackendKind :=
  if backend == "csv" then some .csv
  else if backend == "json" then some .json
  else if backend == "sqlite" then some .sqlite
  else if backend == "postgresql" then some .postgresql
  else if backend == "mariadb" then some .mariadb
  else if backend == "mysql" then some .mysql
  else if backend == "mssql" then some .mssql
  else if backend == "oracle" then some .oracle
  else none

/-- The stage of `build_database_handler` after the selector has been
lowercased.  Modelled from the spec: each builder lambda constructs and
returns a handler instance of the corresponding adapter class (the
`ddd-service` handler modules themselves are not part of the sources here),
so a successful build is modelled as yielding the selected backend kind. -/
def buildFromKind (backend : String) : Except String BackendKind :=
  match lookupBuilder backend with
  | some kind => .ok kind
  | none =>
      .error ("Unsupported DB_BACKEND \x27" ++ backend ++ "\x27. Supported: "
        ++ String.intercalate ", " builderKeys)

/-- Factory `build_database_handler` from `ddd-service/src/main.py`:
`os.getenv("DB_BACKEND", "json").lower()` selects the builder; an unknown
selector raises `ValueError` naming the supported set. -/
def build_database_handler (db_backend : Option String) : Except String BackendKind :=
  buildFromKind (db_backend.getD "json").toLower

/-- A heap of Python dict objects: addresses are list indices.  This makes
aliasing and in-place mutation observable, so the no-mutation claims about
the dict-spread code are provable rather than vacuous. -/
structure Heap where
  dicts : List Rec

namespace Heap

/-- Dereference an address (out-of-range reads yield the empty dict). -/
def get (h : Heap) (a : Nat) : Rec := h.dicts.getD a []

/-- Allocate a fresh dict object, leaving every existing address untouched. -/
def alloc (h : Heap) (r : Rec) : Heap × Nat :=
  (⟨h.dicts ++ [r]⟩, h.dicts.length)

end Heap

/-- Heap-level `ensure_id`: reads the record at address `a` and allocates the
fresh dict built by the `{**record, id_field: ...}` spread; it never writes
through an existing address. -/
def ensure_idH (h : Heap) (a : Nat) (id_field : String) (fresh : Nat) : Heap × Nat :=
  h.alloc (ensure_id (h.get a) id_field fresh)

/-- Heap-level row merge performed by the file handler `update`
(`\x7b**row, **updates, id_field: record_id\x7d`): reads both operand dicts and
allocates the merged result as a new object. -/
def mergeRowH (h : Heap) (rowAddr updAddr : Nat) (id_field record_id : String) :
    Heap × Nat :=
  h.alloc (((h.get rowAddr).merge (h.get updAddr)).insert id_field (.str record_id))

/-- A lowercase hexadecimal digit character. -/
abbrev IsLowerHexDigit (c : Char) : Prop :=
  (Char.ofNat 48 ≤ c ∧ c ≤ Char.ofNat 57) ∨ (Char.ofNat 97 ≤ c ∧ c ≤ Char.ofNat 102)

/-- Extensional equality of records, i.e. Python `==` on dicts: the same keys
bound to the same values, irrespective of insertion order. -/
def recEqv (r s : Rec) : Prop := ∀ k, r.get k = s.get k

/-! ### Supporting lemmas -/

theorem toDigitsCore_length_le (b : Nat) :
    ∀ (f n : Nat) (ds : List Char), ds.length ≤ (Nat.toDigitsCore b f n ds).length
  | 0, _, _ => le_rfl
  | f + 1, n, ds => by
      unfold Nat.toDigitsCore
      by_cases h : n / b = 0
      · simp [h]
      · simp only [h, if_false]
        exact le_trans (by simp) (toDigitsCore_length_le b f (n / b) _)

theorem toDigits_ne_nil (b n : Nat) : Nat.toDigits b n ≠ [] := by
  unfold Nat.toDigits Nat.toDigitsCore
  by_cases h : n / b = 0
  · simp [h]
  · simp only [h, if_false]
    intro hc
    have hlen := toDigitsCore_length_le b n (n / b) [Nat.digitChar (n % b)]
    rw [hc] at hlen
    simp at hlen

theorem nat_repr_ne_empty (n : Nat) : Nat.repr n ≠ "" := by
  intro h
  have h2 : (Nat.toDigits 10 n) = String.data "" := congrArg String.data h
  exact toDigits_ne_nil 10 n h2

theorem ne_empty_of_data_ne_nil {s : String} (h : s.data ≠ []) : s ≠ "" := by
  intro h2
  rw [h2] at h
  exact h rfl

theorem int_repr_ne_empty (n : Int) : Int.repr n ≠ "" := by
  cases n with
  | ofNat m => exact nat_repr_ne_empty m
  | negSucc m =>
      apply ne_empty_of_data_ne_nil
      show ("-" ++ Nat.repr (Nat.succ m)).data ≠ []
      rw [String.data_append]
      simp

theorem pyStr_ne_empty (v : Value) (h : v.truthy = true) : pyStr v ≠ "" := by
  cases v with
  | str s =>
      simp [Value.truthy] at h
      simpa [pyStr] using h
  | int n =>
      simpa [pyStr, pyRepr] using int_repr_ne_empty n
  | bool b =>
      cases b
      · simp [Value.truthy] at h
      · simp [pyStr, pyRepr]
  | null => simp [Value.truthy] at h
  | list vs =>
      apply ne_empty_of_data_ne_nil
      show (("[" ++ String.intercalate ", " (pyReprList vs)) ++ "]").data ≠ []
      rw [String.data_append, String.data_append]
      simp
  | dict fs =>
      apply ne_empty_of_data_ne_nil
      show (("\x7b" ++ String.intercalate ", " (pyReprFields fs)) ++ "\x7d").data ≠ []
      rw [String.data_append, String.data_append]
      simp

theorem hexDigitChar_isLowerHex (k : Nat) (hk : k < 16) :
    IsLowerHexDigit (hexDigitChar k) := by
  revert hk
  revert k
  decide

theorem uuidHex_length (n : Nat) : (uuidHex n).length = 32 := by
  show ((List.range 32).map _).length = 32
  simp

theorem uuidHex_ne_empty (n : Nat) : uuidHex n ≠ "" := by
  intro h
  have hl := uuidHex_length n
  rw [h] at hl
  simp at hl

theorem uuidHex_chars (n : Nat) : ∀ c ∈ (uuidHex n).data, IsLowerHexDigit c := by
  intro c hc
  simp only [uuidHex] at hc
  rw [List.mem_map] at hc
  obtain ⟨i, _, rfl⟩ := hc
  exact hexDigitChar_isLowerHex _ (Nat.mod_lt _ (by decide))

theorem ensure_id_get_truthy (record : Rec) (id_field : String) (fresh : Nat)
    (v : Value) (hv : record.get id_field = some v) (ht : v.truthy = true) :
    (ensure_id record id_field fresh).get id_field = some (.str (pyStr v)) := by
  unfold ensure_id
  rw [hv]
  simp [truthyOpt, ht, pyStrOpt, Rec.get_insert_self]

theorem ensure_id_get_absent (record : Rec) (id_field : String) (fresh : Nat)
    (hv : record.get id_field = none) :
    (ensure_id record id_field fresh).get id_field = some (.str (uuidHex fresh)) := by
  unfold ensure_id
  rw [hv]
  simp [truthyOpt, Rec.get_insert_self]

theorem ensure_id_get_falsy (record : Rec) (id_field : String) (fresh : Nat)
    (v : Value) (hv : record.get id_field = some v) (ht : v.truthy = false) :
    (ensure_id record id_field fresh).get id_field = some (.str (uuidHex fresh)) := by
  unfold ensure_id
  rw [hv]
  simp [truthyOpt, ht, Rec.get_insert_self]

theorem ensure_id_get_other (record : Rec) (id_field : String) (fresh : Nat)
    (k : String) (hk : k ≠ id_field) :
    (ensure_id record id_field fresh).get k = record.get k := by
  unfold ensure_id
  by_cases h : truthyOpt (record.get id_field) <;>
    simp [h, Rec.get_insert_ne _ _ _ _ hk]

theorem ensure_id_of_present_str (record : Rec) (id_field : String) (fresh : Nat)
    (s : String) (hs : record.get id_field = some (.str s)) (hne : s ≠ "") :
    ensure_id record id_field fresh = record.insert id_field (.str s) := by
  unfold ensure_id
  rw [hs]
  simp [truthyOpt, Value.truthy, hne, pyStrOpt, pyStr]

theorem ensure_id_self_of_pinned (record : Rec) (id_field : String) (fresh : Nat)
    (s : String) (hs : record.get id_field = some (.str s)) (hne : s ≠ "") :
    ensure_id record id_field fresh = record := by
  rw [ensure_id_of_present_str record id_field fresh s hs hne]
  exact Rec.insert_of_get_eq _ _ _ hs

theorem ensure_id_nonempty (record : Rec) (id_field : String) (fresh : Nat) :
    ∃ s, (ensure_id record id_field fresh).get id_field = some (.str s) ∧ s ≠ "" := by
  cases hv : record.get id_field with
  | none =>
      exact ⟨uuidHex fresh, ensure_id_get_absent record id_field fresh hv,
        uuidHex_ne_empty fresh⟩
  | some v =>
      cases ht : v.truthy with
      | false =>
          exact ⟨uuidHex fresh, ensure_id_get_falsy record id_field fresh v hv ht,
            uuidHex_ne_empty fresh⟩
      | true =>
          exact ⟨pyStr v, ensure_id_get_truthy record id_field fresh v hv ht,
            pyStr_ne_empty v ht⟩

theorem rowMatches_own_id (id_field : String) (row : Rec) :
    rowMatches id_field (pyStrOpt (row.get id_field)) row = true := by
  simp [rowMatches]

theorem find?_eq_none_of_all_false {p : Rec → Bool} {l : List Rec}
    (h : ∀ row ∈ l, p row = false) : l.find? p = none := by
  rw [List.find?_eq_none]
  intro row hrow
  simp [h row hrow]

namespace JSONDatabaseHandler

theorem read_append_of_no_match (id_field : String) (rows : List Rec) (r : Rec)
    (rid : String) (hnone : ∀ row ∈ rows, rowMatches id_field rid row = false)
    (hr : rowMatches id_field rid r = true) :
    read id_field (rows ++ [r]) rid = some r := by
  unfold read
  rw [List.find?_append, find?_eq_none_of_all_false hnone]
  simp [List.find?, hr]

theorem updateGo_no_match (id_field rid : String) (updates : Rec) (l : List Rec)
    (h : ∀ row ∈ l, rowMatches id_field rid row = false) :
    updateGo id_field rid updates l = (l, none) := by
  induction l with
  | nil => rfl
  | cons row rest ih =>
      unfold updateGo
      rw [ih fun r hr => h r (List.mem_cons_of_mem _ hr)]
      simp [h row (List.mem_cons_self _ _)]

theorem updateGo_unique_match (id_field rid : String) (updates : Rec)
    (pre post : List Rec) (row0 : Rec)
    (hpre : ∀ row ∈ pre, rowMatches id_field rid row = false)
    (hrow : rowMatches id_field rid row0 = true)
    (hpost : ∀ row ∈ post, rowMatches id_field rid row = false) :
    updateGo id_field rid updates (pre ++ row0 :: post) =
      (pre ++ ((row0.merge updates).insert id_field (.str rid)) :: post,
       some ((row0.merge updates).insert id_field (.str rid))) := by
  induction pre with
  | nil =>
      simp only [List.nil_append]
      unfold updateGo
      rw [updateGo_no_match id_field rid updates post hpost]
      simp [hrow]
  | cons p pre ih =>
      have hp := hpre p (List.mem_cons_self _ _)
      have ih' := ih fun r hr => hpre r (List.mem_cons_of_mem _ hr)
      simp only [List.cons_append]
      unfold updateGo
      rw [ih']
      simp [hp]

end JSONDatabaseHandler

namespace Table

theorem find?_map_replace (t : Table) (key : String) (r : Rec)
    (h : (t.find? fun e => e.1 == key).isSome = true) :
    ((t.map fun e => if e.1 == key then (key, r) else e).find? fun e => e.1 == key)
      = some (key, r) := by
  induction t with
  | nil => simp [List.find?] at h
  | cons e t ih =>
      obtain ⟨k1, r1⟩ := e
      by_cases he : k1 = key
      · simp [List.find?, he]
      · have h' : (t.find? fun e => e.1 == key).isSome = true := by
          simpa [List.find?_cons, he] using h
        simpa [List.find?_cons, he] using ih h'

theorem lookup_upsert_self (t : Table) (key : String) (r : Rec) :
    (t.upsert key r).lookup key = some r := by
  unfold upsert
  cases hfind : (t.find? fun e => e.1 == key) with
  | some e0 =>
      simp only [Option.isSome_some, if_true]
      unfold lookup
      rw [find?_map_replace t key r (by rw [hfind]; rfl)]
      rfl
  | none =>
      simp only [Option.isSome_none, Bool.false_eq_true, if_false]
      unfold lookup
      rw [List.find?_append, hfind]
      simp [List.find?]

theorem countP_key_upsert (t : Table) (key : String) (r : Rec)
    (h : (t.map Prod.fst).Nodup) :
    (t.upsert key r).countP (fun e => e.1 == key) = 1 := by
  unfold upsert
  cases hfind : (t.find? fun e => e.1 == key) with
  | some e0 =>
      simp only [Option.isSome_some, if_true]
      have hmem : key ∈ t.map Prod.fst := by
        have h1 := List.find?_some hfind
        have h2 := List.mem_of_find?_eq_some hfind
        rw [beq_iff_eq] at h1
        exact h1 ▸ List.mem_map_of_mem Prod.fst h2
      rw [List.countP_map]
      have hcong : t.countP ((fun e => e.1 == key) ∘ fun e =>
          if e.1 == key then (key, r) else e) = t.countP (fun e => e.1 == key) := by
        apply List.countP_congr
        intro e _
        by_cases he : e.1 = key <;> simp [he]
      rw [hcong]
      have hcount : t.countP (fun e => e.1 == key) = (t.map Prod.fst).count key := by
        rw [List.count, List.countP_map]
        rfl
      rw [hcount]
      exact List.count_eq_one_of_mem h hmem
  | none =>
      simp only [Option.isSome_none, Bool.false_eq_true, if_false]
      rw [List.countP_append]
      have hzero : t.countP (fun e => e.1 == key) = 0 := by
        rw [List.countP_eq_zero]
        rw [List.find?_eq_none] at hfind
        intro e he
        simpa using hfind e he
      rw [hzero]
      simp [List.countP_cons]

end Table

theorem sqlite_create_of_pinned (id_field : String) (fresh : Nat) (t : Table)
    (record : Rec) (s : String) (hs : record.get id_field = some (.str s))
    (hne : s ≠ "") :
    SQLiteDatabaseHandler.create id_field fresh t record = (t.upsert s record, s) := by
  unfold SQLiteDatabaseHandler.create
  rw [ensure_id_self_of_pinned record id_field fresh s hs hne]
  show (t.upsert (pyStrOpt (record.get id_field)) record,
    pyStrOpt (record.get id_field)) = _
  rw [hs]
  rfl

theorem mem_keys_of_get {r : Rec} {k : String} {v : Value} (h : r.get k = some v) :
    k ∈ Rec.keys r := by
  induction r with
  | nil => simp [Rec.get] at h
  | cons kv r ih =>
      obtain ⟨k1, v1⟩ := kv
      rw [Rec.get_cons] at h
      by_cases hk : k1 = k
      · simp [hk]
      · simp only [hk, beq_iff_eq, if_false] at h
        simp [ih h]

namespace CSVDatabaseHandler

theorem mem_csvFields (rows : List Rec) (row : Rec) (k : String)
    (hrow : row ∈ rows) (hk : k ∈ Rec.keys row) : k ∈ csvFields rows := by
  unfold csvFields
  have h1 : k ∈ rows.flatMap Rec.keys := List.mem_flatMap.mpr ⟨row, hrow, hk⟩
  have h2 : k ∈ (rows.flatMap Rec.keys).dedup := List.mem_dedup.mpr h1
  exact ((List.mergeSort_perm _ _).mem_iff).mpr h2

theorem fields_row_get (fields : List String) (row : Rec) (key : String)
    (h : key ∈ fields) :
    Rec.get (fields.map fun k => (k, csvCell (row.get k))) key
      = some (csvCell (row.get key)) := by
  induction fields with
  | nil => simp at h
  | cons f fs ih =>
      by_cases hf : f = key
      · subst hf
        simp [Rec.get]
      · rw [List.mem_cons] at h
        rcases h with h | h
        · exact absurd h.symm hf
        · simp [Rec.get, hf, ih h]

theorem rowMatches_normalized (rows : List Rec) (row : Rec) (idf rid s : String)
    (hrow : row ∈ rows) (hs : row.get idf = some (.str s)) :
    rowMatches idf rid ((csvFields rows).map fun k => (k, csvCell (row.get k)))
      = rowMatches idf rid row := by
  have hmem := mem_csvFields rows row idf hrow (mem_keys_of_get hs)
  unfold rowMatches
  rw [fields_row_get _ row idf hmem, hs]
  simp [csvCell, pyStrOpt, pyStr]

theorem csvNormalize_countP (idf rid : String) (rows : List Rec)
    (hstr : ∀ row ∈ rows, ∃ s, row.get idf = some (Value.str s)) :
    (csvNormalize rows).countP (rowMatches idf rid)
      = rows.countP (rowMatches idf rid) := by
  unfold csvNormalize
  cases hrows : rows with
  | nil => simp
  | cons r0 rest =>
      rw [← hrows]
      have hne : rows.isEmpty = false := by rw [hrows]; rfl
      rw [hne]
      simp only [Bool.false_eq_true, if_false]
      rw [List.countP_map]
      apply List.countP_congr
      intro row hrow
      obtain ⟨s, hs⟩ := hstr row hrow
      rw [Function.comp_apply, rowMatches_normalized rows row idf rid s hrow hs]

theorem csvNormalize_length (rows : List Rec) :
    (csvNormalize rows).length = rows.length := by
  unfold csvNormalize
  cases rows with
  | nil => rfl
  | cons r0 rest => simp

end CSVDatabaseHandler

theorem countP_not_add_countP (p : Rec → Bool) (l : List Rec) :
    l.countP (fun row => !(p row)) + l.countP p = l.length := by
  induction l with
  | nil => rfl
  | cons row rest ih =>
      rw [List.countP_cons, List.countP_cons]
      cases h : p row <;> simp [h] <;> omega

/-- Shared characterization of the delete filter used by the file handlers. -/
theorem delete_filter_facts (p : Rec → Bool) (rows : List Rec) :
    (rows.filter fun row => !(p row)).countP p = 0
    ∧ (rows.filter fun row => !(p row)).length + rows.countP p = rows.length := by
  constructor
  · rw [List.countP_eq_zero]
    intro row hrow
    have := (List.mem_filter.mp hrow).2
    simpa using this
  · rw [← List.countP_eq_length_filter]
    exact countP_not_add_countP p rows

theorem filter_length_ne_of_any (p : Rec → Bool) (rows : List Rec)
    (h : rows.any p = true) :
    (rows.filter fun row => !(p row)).length ≠ rows.length := by
  have hpos : 0 < rows.countP p := by
    rw [List.countP_pos_iff]
    simpa [List.any_eq_true] using h
  have := (delete_filter_facts p rows).2
  omega

theorem filter_eq_self_of_not_any (p : Rec → Bool) (rows : List Rec)
    (h : rows.any p = false) :
    (rows.filter fun row => !(p row)) = rows := by
  rw [List.filter_eq_self]
  intro row hrow
  have hfalse : p row = false := by
    by_contra hc
    rw [Bool.not_eq_false] at hc
    have : rows.any p = true := List.any_eq_true.mpr ⟨row, hrow, hc⟩
    rw [h] at this
    exact Bool.false_ne_true this
  simp [hfalse]

/-- Fields of the merged record `\x7b**row, **updates, id_field: rid\x7d`:
identifier pinned, update fields override, untouched fields survive. -/
theorem merged_get_pinned (row updates : Rec) (id_field rid : String) :
    ((row.merge updates).insert id_field (.str rid)).get id_field
      = some (.str rid) :=
  Rec.get_insert_self _ _ _

theorem merged_get_override (row updates : Rec) (id_field rid : String)
    (hupd : Rec.NoDupKeys updates) (k : String) (v : Value)
    (hk : k ≠ id_field) (hv : updates.get k = some v) :
    ((row.merge updates).insert id_field (.str rid)).get k = some v := by
  rw [Rec.get_insert_ne _ _ _ _ hk]
  exact Rec.get_merge_of_mem row updates hupd k v hv

theorem merged_get_retain (row updates : Rec) (id_field rid : String)
    (hupd : Rec.NoDupKeys updates) (k : String)
    (hk : k ≠ id_field) (hv : updates.get k = none) :
    ((row.merge updates).insert id_field (.str rid)).get k = row.get k := by
  rw [Rec.get_insert_ne _ _ _ _ hk]
  exact Rec.get_merge_of_not_mem row updates hupd k hv

theorem toLower_eval (s : String) : s.toLower = ⟨s.data.map Char.toLower⟩ :=
  String.map_eq _ _

/-! ### Claim theorems -/

/-- C1 counterexample: `create` is not an upsert on the JSON file handler.
Creating `\x7b"id": "1", "a": 0\x7d` and then `\x7b"id": "1", "a": 5\x7d` leaves TWO
stored records carrying identifier "1" (the second create returns "1" without
error but replaces nothing), contradicting "at most one stored record carries
that identifier afterwards". -/
theorem C1_create_not_upsert_counterexample :
    ((JSONDatabaseHandler.create "id" 0
        (JSONDatabaseHandler.create "id" 0 [] [("id", Value.str "1"), ("a", Value.int 0)]).1
        [("id", Value.str "1"), ("a", Value.int 5)]).1.countP
      (rowMatches "id" "1")) = 2
    ∧ (JSONDatabaseHandler.create "id" 0
        (JSONDatabaseHandler.create "id" 0 [] [("id", Value.str "1"), ("a", Value.int 0)]).1
        [("id", Value.str "1"), ("a", Value.int 5)]).2 = "1" := by
  exact ⟨by decide, by decide⟩

/-- C1 amended: `create` applies the identifier policy and returns the
canonical string identifier on every handler, but only the SQL-backed
handlers upsert: the SQLite create replaces the row with that key (leaving
exactly one row whose key is the returned identifier, with the normalized
record as payload), while the JSON and CSV file handlers append the
normalized record, retaining any existing rows with the same identifier. -/
theorem C1_create_upsert_amended (id_field : String) (fresh : Nat) (record : Rec) :
    (∀ t : Table, (t.map Prod.fst).Nodup →
      (SQLiteDatabaseHandler.create id_field fresh t record).1.lookup
          (SQLiteDatabaseHandler.create id_field fresh t record).2
        = some (ensure_id record id_field fresh)
      ∧ (SQLiteDatabaseHandler.create id_field fresh t record).1.countP
          (fun e => e.1 == (SQLiteDatabaseHandler.create id_field fresh t record).2) = 1)
    ∧ (∀ rows : List Rec,
      (JSONDatabaseHandler.create id_field fresh rows record).1
          = rows ++ [ensure_id record id_field fresh]
      ∧ (JSONDatabaseHandler.create id_field fresh rows record).2 ≠ "")
    ∧ (∀ rows : List Rec,
      (CSVDatabaseHandler.create id_field fresh rows record).1.length
        = rows.length + 1) := by
  refine ⟨fun t hnodup => ⟨?_, ?_⟩, fun rows => ⟨rfl, ?_⟩, fun rows => ?_⟩
  · exact Table.lookup_upsert_self t _ _
  · exact Table.countP_key_upsert t _ _ hnodup
  · obtain ⟨s, hs, hne⟩ := ensure_id_nonempty record id_field fresh
    show pyStrOpt ((ensure_id record id_field fresh).get id_field) ≠ ""
    rw [hs]
    simpa [pyStrOpt, pyStr] using hne
  · show (CSVDatabaseHandler.csvNormalize (rows ++ [ensure_id record id_field fresh])).length
      = rows.length + 1
    rw [CSVDatabaseHandler.csvNormalize_length]
    simp

/-- C1 amended witness at a concrete record, table and row list. -/
theorem C1_create_upsert_amended_witness :
    (SQLiteDatabaseHandler.create "id" 0 [] [("id", Value.str "7")]).1.lookup
        (SQLiteDatabaseHandler.create "id" 0 [] [("id", Value.str "7")]).2
      = some (ensure_id [("id", Value.str "7")] "id" 0)
    ∧ (JSONDatabaseHandler.create "id" 0 [] [("id", Value.str "7")]).2 ≠ "" := by
  exact ⟨((C1_create_upsert_amended "id" 0 [("id", Value.str "7")]).1 [] (by simp)).1,
    ((C1_create_upsert_amended "id" 0 [("id", Value.str "7")]).2.1 []).2⟩

/-- C2: the handler contract is NOT exposed identically by every adapter.
The abstract base class declares create/read/update/delete/backup/close, but
the CSV handler defines neither `backup` nor `close`, and the JSON and SQLite
handlers do not define `close`; the Python ABC machinery therefore refuses to
instantiate those three classes, while the five networked-SQL handler classes
define all six operations. -/
theorem C2_contract_gap :
    instantiable Adapter.csvHandler = false
    ∧ instantiable Adapter.jsonHandler = false
    ∧ instantiable Adapter.sqliteHandler = false
    ∧ instantiable Adapter.postgresHandler = true
    ∧ instantiable Adapter.mariadbHandler = true
    ∧ instantiable Adapter.mysqlHandler = true
    ∧ instantiable Adapter.mssqlHandler = true
    ∧ instantiable Adapter.oracleHandler = true
    ∧ (definedMethods Adapter.csvHandler).contains "backup" = false
    ∧ (definedMethods Adapter.csvHandler).contains "close" = false
    ∧ (definedMethods Adapter.jsonHandler).contains "close" = false
    ∧ (definedMethods Adapter.sqliteHandler).contains "close" = false := by
  decide

/-- C3: the identifier policy keeps a present non-empty (truthy) identifier,
coerced to its string form; an absent identifier is replaced by the freshly
generated 32-digit hex token; in every case the resulting record carries a
non-empty string identifier and `create` returns a non-empty identifier. -/
theorem C3_identifier_policy (record : Rec) (id_field : String) (fresh : Nat) :
    (∀ s, record.get id_field = some (.str s) → s ≠ "" →
      (ensure_id record id_field fresh).get id_field = some (.str s))
    ∧ (∀ v, record.get id_field = some v → v.truthy = true →
      (ensure_id record id_field fresh).get id_field = some (.str (pyStr v)))
    ∧ (record.get id_field = none →
      (ensure_id record id_field fresh).get id_field = some (.str (uuidHex fresh)))
    ∧ ((uuidHex fresh).length = 32 ∧ ∀ c ∈ (uuidHex fresh).data, IsLowerHexDigit c)
    ∧ (∃ s, (ensure_id record id_field fresh).get id_field = some (.str s) ∧ s ≠ "")
    ∧ (∀ rows, (JSONDatabaseHandler.create id_field fresh rows record).2 ≠ "") := by
  refine ⟨fun s hs hne => ?_, fun v hv ht => ensure_id_get_truthy record id_field fresh v hv ht,
    fun hv => ensure_id_get_absent record id_field fresh hv,
    ⟨uuidHex_length fresh, uuidHex_chars fresh⟩,
    ensure_id_nonempty record id_field fresh, fun rows => ?_⟩
  · have ht : (Value.str s).truthy = true := by simp [Value.truthy, hne]
    have := ensure_id_get_truthy record id_field fresh (.str s) hs ht
    simpa [pyStr] using this
  · obtain ⟨s, hs, hne⟩ := ensure_id_nonempty record id_field fresh
    show pyStrOpt ((ensure_id record id_field fresh).get id_field) ≠ ""
    rw [hs]
    simpa [pyStrOpt, pyStr] using hne

/-- C3 witness: a present identifier "1" is kept; an absent identifier is
replaced by the hex token; the returned identifier is non-empty. -/
theorem C3_identifier_policy_witness :
    (ensure_id [("id", Value.str "1"), ("a", Value.int 0)] "id" 0).get "id"
        = some (Value.str "1")
    ∧ (ensure_id [("name", Value.str "demo")] "id" 5).get "id"
        = some (Value.str (uuidHex 5))
    ∧ (JSONDatabaseHandler.create "id" 0 [] [("name", Value.str "demo")]).2 ≠ "" := by
  refine ⟨(C3_identifier_policy [("id", Value.str "1"), ("a", Value.int 0)] "id" 0).1 "1"
      (by decide) (by decide),
    (C3_identifier_policy [("name", Value.str "demo")] "id" 5).2.2.1 (by decide),
    (C3_identifier_policy [("name", Value.str "demo")] "id" 0).2.2.2.2.2 []⟩

/-- C4 counterexample: the round trip `read(create(r)) == ensure_id(r)` fails
on the JSON backend from a reachable state.  After `create` of
`\x7b"id": "1", "a": 0\x7d`, a second `create` of `\x7b"id": "1", "a": 5\x7d` appends,
and `read` of the returned identifier yields the OLD record (`a = 0`), which
is not dict-equal to the normalized new record (`a = 5`). -/
theorem C4_roundtrip_counterexample :
    JSONDatabaseHandler.read "id"
        (JSONDatabaseHandler.create "id" 0
          (JSONDatabaseHandler.create "id" 0 [] [("id", Value.str "1"), ("a", Value.int 0)]).1
          [("id", Value.str "1"), ("a", Value.int 5)]).1
        (JSONDatabaseHandler.create "id" 0
          (JSONDatabaseHandler.create "id" 0 [] [("id", Value.str "1"), ("a", Value.int 0)]).1
          [("id", Value.str "1"), ("a", Value.int 5)]).2
      = some [("id", Value.str "1"), ("a", Value.int 0)]
    ∧ ¬ recEqv [("id", Value.str "1"), ("a", Value.int 0)]
        (ensure_id [("id", Value.str "1"), ("a", Value.int 5)] "id" 0) := by
  refine ⟨by decide, fun h => ?_⟩
  have ha := h "a"
  revert ha
  decide

/-- C4 amended: `read(create(r))` returns exactly `ensure_id(r)` on the
SQLite (embedded-SQL) backend from ANY store state; on the JSON backend it
does so whenever the store holds no row whose stringified identifier already
equals the identifier returned by `create` (from a state already containing
such a row, `read` returns the first matching row, which need not be the
newly created record). -/
theorem C4_roundtrip_amended (id_field : String) (fresh : Nat) (record : Rec) :
    (∀ t : Table,
      SQLiteDatabaseHandler.read (SQLiteDatabaseHandler.create id_field fresh t record).1
          (SQLiteDatabaseHandler.create id_field fresh t record).2
        = some (ensure_id record id_field fresh))
    ∧ (∀ rows : List Rec,
      (∀ row ∈ rows,
        rowMatches id_field (JSONDatabaseHandler.create id_field fresh rows record).2 row
          = false) →
      JSONDatabaseHandler.read id_field
          (JSONDatabaseHandler.create id_field fresh rows record).1
          (JSONDatabaseHandler.create id_field fresh rows record).2
        = some (ensure_id record id_field fresh)) := by
  refine ⟨fun t => Table.lookup_upsert_self t _ _, fun rows hnone => ?_⟩
  exact JSONDatabaseHandler.read_append_of_no_match id_field rows _ _ hnone
    (rowMatches_own_id id_field _)

/-- C4 amended witness at a concrete record, on the empty table and the empty
row list. -/
theorem C4_roundtrip_amended_witness :
    SQLiteDatabaseHandler.read
        (SQLiteDatabaseHandler.create "id" 0 [] [("id", Value.str "9"), ("a", Value.int 3)]).1
        (SQLiteDatabaseHandler.create "id" 0 [] [("id", Value.str "9"), ("a", Value.int 3)]).2
      = some (ensure_id [("id", Value.str "9"), ("a", Value.int 3)] "id" 0)
    ∧ JSONDatabaseHandler.read "id"
        (JSONDatabaseHandler.create "id" 0 [] [("id", Value.str "9"), ("a", Value.int 3)]).1
        (JSONDatabaseHandler.create "id" 0 [] [("id", Value.str "9"), ("a", Value.int 3)]).2
      = some (ensure_id [("id", Value.str "9"), ("a", Value.int 3)] "id" 0) := by
  exact ⟨(C4_roundtrip_amended "id" 0 [("id", Value.str "9"), ("a", Value.int 3)]).1 [],
    (C4_roundtrip_amended "id" 0 [("id", Value.str "9"), ("a", Value.int 3)]).2 [] (by simp)⟩

/-- C5: `update(id, partial)` returns and persists the shallow merge: partial
fields override, absent fields are retained from the stored record, and the
identifier is pinned to `id` whatever `partial` contains — on the JSON file
handler (for a uniquely matching stored row) and on the SQLite handler. -/
theorem C5_update_shallow_merge (id_field rid : String) (updates : Rec) :
    (∀ (pre post : List Rec) (row0 : Rec),
      (∀ row ∈ pre, rowMatches id_field rid row = false) →
      rowMatches id_field rid row0 = true →
      (∀ row ∈ post, rowMatches id_field rid row = false) →
      JSONDatabaseHandler.update id_field (pre ++ row0 :: post) rid updates
        = (pre ++ ((row0.merge updates).insert id_field (.str rid)) :: post,
            some ((row0.merge updates).insert id_field (.str rid)))
      ∧ ((row0.merge updates).insert id_field (.str rid)).get id_field
          = some (.str rid)
      ∧ (Rec.NoDupKeys updates → ∀ k v, k ≠ id_field → updates.get k = some v →
          ((row0.merge updates).insert id_field (.str rid)).get k = some v)
      ∧ (Rec.NoDupKeys updates → ∀ k, k ≠ id_field → updates.get k = none →
          ((row0.merge updates).insert id_field (.str rid)).get k = row0.get k))
    ∧ (∀ (fresh : Nat) (t : Table) (existing : Rec),
      SQLiteDatabaseHandler.read t rid = some existing → rid ≠ "" →
      SQLiteDatabaseHandler.update id_field fresh t rid updates
        = (t.upsert rid ((existing.merge updates).insert id_field (.str rid)),
            some ((existing.merge updates).insert id_field (.str rid)))
      ∧ SQLiteDatabaseHandler.read
          (SQLiteDatabaseHandler.update id_field fresh t rid updates).1 rid
        = some ((existing.merge updates).insert id_field (.str rid))
      ∧ (Rec.NoDupKeys updates → ∀ k v, k ≠ id_field → updates.get k = some v →
          ((existing.merge updates).insert id_field (.str rid)).get k = some v)
      ∧ (Rec.NoDupKeys updates → ∀ k, k ≠ id_field → updates.get k = none →
          ((existing.merge updates).insert id_field (.str rid)).get k
            = existing.get k)) := by
  constructor
  · intro pre post row0 hpre hrow hpost
    have hgo := JSONDatabaseHandler.updateGo_unique_match id_field rid updates
      pre post row0 hpre hrow hpost
    refine ⟨?_, merged_get_pinned row0 updates id_field rid,
      fun hupd k v => merged_get_override row0 updates id_field rid hupd k v,
      fun hupd k => merged_get_retain row0 updates id_field rid hupd k⟩
    unfold JSONDatabaseHandler.update
    rw [hgo]
    simp
  · intro fresh t existing hread hrid
    have hpin : ((existing.merge updates).insert id_field (.str rid)).get id_field
        = some (.str rid) := Rec.get_insert_self _ _ _
    have hupdate : SQLiteDatabaseHandler.update id_field fresh t rid updates
        = (t.upsert rid ((existing.merge updates).insert id_field (.str rid)),
            some ((existing.merge updates).insert id_field (.str rid))) := by
      unfold SQLiteDatabaseHandler.update
      rw [hread]
      show ((SQLiteDatabaseHandler.create id_field fresh t
          ((existing.merge updates).insert id_field (.str rid))).1,
        some ((existing.merge updates).insert id_field (.str rid))) = _
      rw [sqlite_create_of_pinned id_field fresh t _ rid hpin hrid]
    refine ⟨hupdate, ?_,
      fun hupd k v => merged_get_override existing updates id_field rid hupd k v,
      fun hupd k => merged_get_retain existing updates id_field rid hupd k⟩
    rw [hupdate]
    exact Table.lookup_upsert_self t _ _

/-- C5 witness: the concrete example from the specification.  `update("X", \x7ba: 1\x7d)` on the
stored record `\x7ba: 0, b: 2, id: "X"\x7d` yields `\x7ba: 1, b: 2, id: "X"\x7d` on both
handlers. -/
theorem C5_update_shallow_merge_witness :
    JSONDatabaseHandler.update "id"
        [[("a", Value.int 0), ("b", Value.int 2), ("id", Value.str "X")]] "X"
        [("a", Value.int 1)]
      = ([[("a", Value.int 1), ("b", Value.int 2), ("id", Value.str "X")]],
          some [("a", Value.int 1), ("b", Value.int 2), ("id", Value.str "X")])
    ∧ SQLiteDatabaseHandler.update "id" 0
        [("X", [("a", Value.int 0), ("b", Value.int 2), ("id", Value.str "X")])] "X"
        [("a", Value.int 1)]
      = ([("X", [("a", Value.int 1), ("b", Value.int 2), ("id", Value.str "X")])],
          some [("a", Value.int 1), ("b", Value.int 2), ("id", Value.str "X")]) := by
  constructor
  · exact ((C5_update_shallow_merge "id" "X" [("a", Value.int 1)]).1 [] []
      [("a", Value.int 0), ("b", Value.int 2), ("id", Value.str "X")]
      (by simp) (by decide) (by simp)).1
  · exact ((C5_update_shallow_merge "id" "X" [("a", Value.int 1)]).2 0
      [("X", [("a", Value.int 0), ("b", Value.int 2), ("id", Value.str "X")])]
      [("a", Value.int 0), ("b", Value.int 2), ("id", Value.str "X")]
      (by decide) (by decide)).1

/-- C6: the factory maps every supported backend-kind selector to the
corresponding adapter and fails on every other selector with a `ValueError`
whose message names the supported set, constructing nothing. -/
theorem C6_factory_selection (sel : String) :
    (sel.toLower ∉ builderKeys →
      build_database_handler (some sel)
        = .error ("Unsupported DB_BACKEND \x27" ++ sel.toLower ++ "\x27. Supported: "
            ++ "csv, json, sqlite, postgresql, mariadb, mysql, mssql, oracle"))
    ∧ (sel.toLower ∈ builderKeys →
      ∃ kind, build_database_handler (some sel) = .ok kind
        ∧ backendKey kind = sel.toLower) := by
  have hbuild : build_database_handler (some sel) = buildFromKind sel.toLower := rfl
  constructor
  · intro h
    rw [hbuild]
    simp only [builderKeys, List.mem_cons, List.not_mem_nil, or_false] at h
    push_neg at h
    obtain ⟨h1, h2, h3, h4, h5, h6, h7, h8⟩ := h
    unfold buildFromKind lookupBuilder
    simp only [beq_iff_eq, h1, h2, h3, h4, h5, h6, h7, h8, if_false]
    rfl
  · intro h
    rw [hbuild]
    simp only [builderKeys, List.mem_cons, List.not_mem_nil, or_false] at h
    rcases h with e | e | e | e | e | e | e | e
    · exact ⟨.csv, by rw [e]; rfl, by rw [e]; rfl⟩
    · exact ⟨.json, by rw [e]; rfl, by rw [e]; rfl⟩
    · exact ⟨.sqlite, by rw [e]; rfl, by rw [e]; rfl⟩
    · exact ⟨.postgresql, by rw [e]; rfl, by rw [e]; rfl⟩
    · exact ⟨.mariadb, by rw [e]; rfl, by rw [e]; rfl⟩
    · exact ⟨.mysql, by rw [e]; rfl, by rw [e]; rfl⟩
    · exact ⟨.mssql, by rw [e]; rfl, by rw [e]; rfl⟩
    · exact ⟨.oracle, by rw [e]; rfl, by rw [e]; rfl⟩

/-- C6 witness: "mongodb" is rejected with the message naming the supported
set; "postgresql" constructs the postgres-kind handler. -/
theorem C6_factory_selection_witness :
    build_database_handler (some "mongodb")
      = .error ("Unsupported DB_BACKEND \x27" ++ "mongodb".toLower ++ "\x27. Supported: "
          ++ "csv, json, sqlite, postgresql, mariadb, mysql, mssql, oracle")
    ∧ ∃ kind, build_database_handler (some "postgresql") = .ok kind
        ∧ backendKey kind = "postgresql".toLower := by
  refine ⟨(C6_factory_selection "mongodb").1 ?_, (C6_factory_selection "postgresql").2 ?_⟩
  · rw [toLower_eval]
    decide
  · rw [toLower_eval]
    decide

/-- C7 counterexample: not every dump-tool backup tries an alternate tool.
In an environment where `pg_dump` is absent but every other tool (including
`mysqldump`) exists and exits 0, the PostgreSQL backup still fails with the
missing-tool error instead of trying any alternate. -/
theorem C7_no_fallback_counterexample :
    PostgresDatabaseHandler.backup
        (fun t => if t = "pg_dump" then none else some 0) "backup.dump"
      = .error (.toolMissing
          "pg_dump is required for PostgreSQL backups but was not found in PATH")
    ∧ (fun t : String => if t = "pg_dump" then none else some (0 : Nat)) "mysqldump"
        = some 0 := by
  exact ⟨rfl, rfl⟩

/-- C7 amended: only the MariaDB backup falls back (mariadb-dump, then
mysqldump, on `FileNotFoundError` only); the PostgreSQL and MySQL backups
invoke a single tool.  On all three, a missing executable and a non-zero exit
code surface as distinct recoverable raised errors — the exit code carried in
the message — and a non-zero exit is never reported as success. -/
theorem C7_backup_errors_amended (env : ToolEnv) (target : String) (code : Nat) :
    (env "mariadb-dump" = none → env "mysqldump" = some 0 →
      MariaDBDatabaseHandler.backup env target = .ok target)
    ∧ (env "mariadb-dump" = none → env "mysqldump" = none →
      MariaDBDatabaseHandler.backup env target = .error (.toolMissing
        "mariadb-dump/mysqldump is required for MariaDB backups but was not found in PATH"))
    ∧ (env "mariadb-dump" = some code → code ≠ 0 →
      MariaDBDatabaseHandler.backup env target
        = .error (.exitFailure ("mariadb-dump failed with exit code " ++ toString code) code))
    ∧ (env "pg_dump" = none →
      PostgresDatabaseHandler.backup env target = .error (.toolMissing
        "pg_dump is required for PostgreSQL backups but was not found in PATH"))
    ∧ (env "pg_dump" = some code → code ≠ 0 →
      PostgresDatabaseHandler.backup env target
        = .error (.exitFailure ("pg_dump failed with exit code " ++ toString code) code))
    ∧ (env "pg_dump" = some 0 → PostgresDatabaseHandler.backup env target = .ok target)
    ∧ (env "mysqldump" = none →
      MySQLDatabaseHandler.backup env target = .error (.toolMissing
        "mysqldump is required for MySQL backups but was not found in PATH"))
    ∧ (env "mysqldump" = some code → code ≠ 0 →
      MySQLDatabaseHandler.backup env target
        = .error (.exitFailure ("mysqldump failed with exit code " ++ toString code) code))
    ∧ (∀ m1 m2 c, BackupError.toolMissing m1 ≠ BackupError.exitFailure m2 c) := by
  refine ⟨fun h1 h2 => ?_, fun h1 h2 => ?_, fun h1 hc => ?_, fun h1 => ?_,
    fun h1 hc => ?_, fun h1 => ?_, fun h1 => ?_, fun h1 hc => ?_,
    fun m1 m2 c h => BackupError.noConfusion h⟩
  · unfold MariaDBDatabaseHandler.backup
    rw [h1, h2]
  · unfold MariaDBDatabaseHandler.backup
    rw [h1, h2]
  · unfold MariaDBDatabaseHandler.backup
    rw [h1]
    cases code with
    | zero => exact absurd rfl hc
    | succ n => rfl
  · unfold PostgresDatabaseHandler.backup
    rw [h1]
  · unfold PostgresDatabaseHandler.backup
    rw [h1]
    cases code with
    | zero => exact absurd rfl hc
    | succ n => rfl
  · unfold PostgresDatabaseHandler.backup
    rw [h1]
  · unfold MySQLDatabaseHandler.backup
    rw [h1]
  · unfold MySQLDatabaseHandler.backup
    rw [h1]
    cases code with
    | zero => exact absurd rfl hc
    | succ n => rfl

/-- C7 amended witness: concrete tool environments exercising the MariaDB
fallback success and the PostgreSQL non-zero-exit failure. -/
theorem C7_backup_errors_amended_witness :
    MariaDBDatabaseHandler.backup
        (fun t => if t = "mysqldump" then some 0 else none) "b" = .ok "b"
    ∧ PostgresDatabaseHandler.backup
        (fun t => if t = "pg_dump" then some 1 else none) "b"
      = .error (.exitFailure ("pg_dump failed with exit code " ++ toString 1) 1) := by
  refine ⟨(C7_backup_errors_amended
      (fun t => if t = "mysqldump" then some 0 else none) "b" 1).1 rfl rfl,
    (C7_backup_errors_amended
      (fun t => if t = "pg_dump" then some 1 else none) "b" 1).2.2.2.2.1 rfl (by decide)⟩

/-- C8: no adapter operation mutates the input dict of the caller.  In the heap
model, the `ensure_id` spread and the update-row merge spread allocate a new
dict at a fresh address and leave every pre-existing address — in particular
the record of the caller and the partial-update dict — bound to exactly the
record it held before; the allocated dict is the pure `ensure_id` result. -/
theorem C8_no_input_mutation (h : Heap) (a updAddr : Nat) (id_field rid : String)
    (fresh : Nat) :
    (∀ i, i < h.dicts.length → (ensure_idH h a id_field fresh).1.get i = h.get i)
    ∧ (ensure_idH h a id_field fresh).2 = h.dicts.length
    ∧ (ensure_idH h a id_field fresh).1.get (ensure_idH h a id_field fresh).2
        = ensure_id (h.get a) id_field fresh
    ∧ (∀ i, i < h.dicts.length → (mergeRowH h a updAddr id_field rid).1.get i = h.get i) := by
  refine ⟨fun i hi => ?_, rfl, ?_, fun i hi => ?_⟩
  · exact List.getD_append _ _ _ _ hi
  · show (h.dicts ++ [ensure_id (h.get a) id_field fresh]).getD h.dicts.length []
      = ensure_id (h.get a) id_field fresh
    rw [List.getD_append_right _ _ _ _ (Nat.le_refl _)]
    simp
  · exact List.getD_append _ _ _ _ hi

/-- C8 witness on a concrete two-dict heap: address 0 (the record the caller passed)
is unchanged by both heap operations. -/
theorem C8_no_input_mutation_witness :
    (ensure_idH ⟨[[("a", Value.int 1)], [("b", Value.int 2)]]⟩ 0 "id" 0).1.get 0
      = Heap.get ⟨[[("a", Value.int 1)], [("b", Value.int 2)]]⟩ 0
    ∧ (mergeRowH ⟨[[("a", Value.int 1)], [("b", Value.int 2)]]⟩ 0 1 "id" "X").1.get 1
      = Heap.get ⟨[[("a", Value.int 1)], [("b", Value.int 2)]]⟩ 1 := by
  exact ⟨(C8_no_input_mutation ⟨[[("a", Value.int 1)], [("b", Value.int 2)]]⟩ 0 1 "id" "X" 0).1
      0 (by decide),
    (C8_no_input_mutation ⟨[[("a", Value.int 1)], [("b", Value.int 2)]]⟩ 0 1 "id" "X" 0).2.2.2
      1 (by decide)⟩

theorem json_delete_eq (id_field : String) (rows : List Rec) (rid : String) :
    JSONDatabaseHandler.delete id_field rows rid
      = if rows.any (rowMatches id_field rid)
        then (rows.filter fun row => !(rowMatches id_field rid row), true)
        else (rows, false) := by
  unfold JSONDatabaseHandler.delete
  cases hany : rows.any (rowMatches id_field rid) with
  | false =>
      rw [filter_eq_self_of_not_any _ _ hany]
      simp
  | true =>
      have hne := filter_length_ne_of_any _ _ hany
      simp [hne]

theorem csv_delete_eq (id_field : String) (rows : List Rec) (rid : String) :
    CSVDatabaseHandler.delete id_field rows rid
      = if rows.any (rowMatches id_field rid)
        then (CSVDatabaseHandler.csvNormalize
            (rows.filter fun row => !(rowMatches id_field rid row)), true)
        else (rows, false) := by
  unfold CSVDatabaseHandler.delete
  cases hany : rows.any (rowMatches id_field rid) with
  | false =>
      rw [filter_eq_self_of_not_any _ _ hany]
      simp
  | true =>
      have hne := filter_length_ne_of_any _ _ hany
      simp [hne]

theorem countP_eq_zero_of_any_false (p : Rec → Bool) (rows : List Rec)
    (h : rows.any p = false) : rows.countP p = 0 := by
  rw [List.countP_eq_zero]
  intro row hrow
  intro hc
  have : rows.any p = true := List.any_eq_true.mpr ⟨row, hrow, hc⟩
  rw [h] at this
  exact Bool.false_ne_true this

/-- C9: on both file handlers, `delete(id)` removes EVERY stored row whose
stringified identifier equals the requested one (not just one), retains
exactly the non-matching rows, and returns `True` exactly when at least one
row was removed.  For CSV the stored rows are string-valued (as `_read_all`
yields them), which the hypothesis records. -/
theorem C9_delete_removes_all (id_field rid : String) :
    (∀ rows : List Rec,
      (JSONDatabaseHandler.delete id_field rows rid).2 = rows.any (rowMatches id_field rid)
      ∧ (JSONDatabaseHandler.delete id_field rows rid).1.countP (rowMatches id_field rid) = 0
      ∧ (JSONDatabaseHandler.delete id_field rows rid).1.length
          + rows.countP (rowMatches id_field rid) = rows.length)
    ∧ (∀ rows : List Rec,
      (∀ row ∈ rows, ∃ s, row.get id_field = some (Value.str s)) →
      (CSVDatabaseHandler.delete id_field rows rid).2 = rows.any (rowMatches id_field rid)
      ∧ (CSVDatabaseHandler.delete id_field rows rid).1.countP (rowMatches id_field rid) = 0
      ∧ (CSVDatabaseHandler.delete id_field rows rid).1.length
          + rows.countP (rowMatches id_field rid) = rows.length) := by
  constructor
  · intro rows
    rw [json_delete_eq]
    cases hany : rows.any (rowMatches id_field rid) with
    | false =>
        have hzero := countP_eq_zero_of_any_false _ _ hany
        simp [hzero]
    | true =>
        have hfacts := delete_filter_facts (rowMatches id_field rid) rows
        rw [if_pos rfl]
        exact ⟨rfl, hfacts.1, hfacts.2⟩
  · intro rows hstr
    rw [csv_delete_eq]
    cases hany : rows.any (rowMatches id_field rid) with
    | false =>
        have hzero := countP_eq_zero_of_any_false _ _ hany
        simp [hzero]
    | true =>
        have hfacts := delete_filter_facts (rowMatches id_field rid) rows
        have hstr2 : ∀ row ∈ rows.filter fun row => !(rowMatches id_field rid row),
            ∃ s, row.get id_field = some (Value.str s) :=
          fun row hrow => hstr row (List.mem_of_mem_filter hrow)
        have hcount := CSVDatabaseHandler.csvNormalize_countP id_field rid _ hstr2
        have hlen := CSVDatabaseHandler.csvNormalize_length
          (rows.filter fun row => !(rowMatches id_field rid row))
        rw [if_pos rfl]
        refine ⟨rfl, ?_, ?_⟩
        · rw [hcount]
          exact hfacts.1
        · rw [hlen]
          exact hfacts.2

/-- C9 witness: deleting identifier "1" from a store holding two rows with
identifier "1" and one with "2" removes both matching rows and returns true.
-/
theorem C9_delete_removes_all_witness :
    (JSONDatabaseHandler.delete "id"
        [[("id", Value.str "1")], [("id", Value.str "1")], [("id", Value.str "2")]] "1").2
      = ([[("id", Value.str "1")], [("id", Value.str "1")],
          [("id", Value.str "2")]] : List Rec).any (rowMatches "id" "1")
    ∧ (JSONDatabaseHandler.delete "id"
        [[("id", Value.str "1")], [("id", Value.str "1")], [("id", Value.str "2")]] "1").1.countP
        (rowMatches "id" "1") = 0
    ∧ (CSVDatabaseHandler.delete "id"
        [[("id", Value.str "1")], [("id", Value.str "1")], [("id", Value.str "2")]] "1").1.countP
        (rowMatches "id" "1") = 0 := by
  refine ⟨((C9_delete_removes_all "id" "1").1
      [[("id", Value.str "1")], [("id", Value.str "1")], [("id", Value.str "2")]]).1,
    ((C9_delete_removes_all "id" "1").1
      [[("id", Value.str "1")], [("id", Value.str "1")], [("id", Value.str "2")]]).2.1,
    ((C9_delete_removes_all "id" "1").2
      [[("id", Value.str "1")], [("id", Value.str "1")], [("id", Value.str "2")]] ?_).2.1⟩
  intro row hrow
  simp only [List.mem_cons, List.not_mem_nil, or_false] at hrow
  rcases hrow with rfl | rfl | rfl
  · exact ⟨"1", rfl⟩
  · exact ⟨"1", rfl⟩
  · exact ⟨"2", rfl⟩

/-- C10: the factory lowercases the backend selector before matching, so two
selectors with the same lowercase form behave identically (e.g. "JSON"
selects the JSON adapter), and an unset selector defaults to the JSON
backend. -/
theorem C10_selector_lowercase_default (sel1 sel2 : String)
    (h : sel1.toLower = sel2.toLower) :
    build_database_handler (some sel1) = build_database_handler (some sel2)
    ∧ (∀ sel : String, build_database_handler (some sel) = buildFromKind sel.toLower)
    ∧ build_database_handler (some "JSON") = .ok BackendKind.json
    ∧ build_database_handler none = .ok BackendKind.json := by
  refine ⟨?_, fun sel => rfl, ?_, ?_⟩
  · show buildFromKind sel1.toLower = buildFromKind sel2.toLower
    rw [h]
  · show buildFromKind "JSON".toLower = .ok BackendKind.json
    rw [toLower_eval]
    rfl
  · show buildFromKind "json".toLower = .ok BackendKind.json
    rw [toLower_eval]
    rfl

/-- C10 witness: "Json" and "JSON" are interchangeable selectors, "JSON"
selects the JSON backend, and the default backend is JSON. -/
theorem C10_selector_lowercase_default_witness :
    build_database_handler (some "Json") = build_database_handler (some "JSON")
    ∧ build_database_handler none = .ok BackendKind.json := by
  have h := C10_selector_lowercase_default "Json" "JSON"
    (by rw [toLower_eval, toLower_eval]; decide)
  exact ⟨h.1, h.2.2.2⟩

end BlueprintX
